import Mathlib

/-!
Verification of the `apple-music-local` now-playing server against its
natural-language specification.

The TypeScript source (src/server/index.ts, src/src/App.tsx) is shallowly
embedded below.  External effects (AppleScript/osascript shell calls, HTTP
fetches, filesystem reads) are modelled by an `Env` record of oracles: each
oracle returns `Except Err _`, where `.error` models a thrown exception and,
for HTTP oracles, `Option` payloads model `response.ok` (`none` = non-ok
response).  Every `try { ... } catch { ... }` in the source becomes an
explicit `match` on the `Except` value.  JavaScript string truthiness is
modelled by comparison with `""`, number truthiness by comparison with `0`.
JS numbers coming from `parseInt` are modelled as `Int`, fractional player
positions and client-side arithmetic as `ℚ`.
-/

namespace AppleMusicLocal

/-- Model of a thrown JS exception's message. -/
abbrev Err := String

/-- `interface SongData` from src/server/index.ts.  The `state` field is a
string at runtime (the AppleScript player state cast to the union type);
optional fields are `Option`; the optional `timestamp` only ever appears on
`LastSongData` and is modelled there. -/
structure SongData where
  title : String
  artist : String
  album : String
  state : String
  albumArt : Option String
  duration : Option Int
  position : Option ℚ
deriving Repr, DecidableEq

/-- `interface LastSongData extends SongData { timestamp: number }`. -/
structure LastSongData extends SongData where
  timestamp : Int
deriving Repr, DecidableEq

/-- `interface iTunesResult` (fields used by the code). -/
structure ITunesResult where
  artistName : String
  collectionName : String
  artworkUrl100 : Option String
deriving Repr, DecidableEq

/-- `interface iTunesResponse`. -/
structure ITunesResponse where
  results : List ITunesResult
  resultCount : Nat
deriving Repr, DecidableEq

/-- `interface LastFmImage`; the JSON key `#text` is modelled as `text`. -/
structure LastFmImage where
  size : String
  text : String
deriving Repr, DecidableEq

/-- `interface LastFmAlbum`. -/
structure LastFmAlbum where
  name : String
  artist : String
  image : List LastFmImage
deriving Repr, DecidableEq

/-- `interface LastFmResponse`; `album` may be absent in the JSON
(the code guards with `data.album && ...`). -/
structure LastFmResponse where
  album : Option LastFmAlbum
deriving Repr, DecidableEq

/-- A picture from `music-metadata`'s `metadata.common.picture`. -/
structure MetaPicture where
  format : String
  data : List Nat
deriving Repr, DecidableEq

/-- The slice of `music-metadata`'s parse result the code reads. -/
structure MetaCommon where
  picture : List MetaPicture
deriving Repr, DecidableEq

/-- One entry of the cached-artwork directory after `readdirSync` + `statSync`. -/
structure CacheEntry where
  name : String
  path : String
  mtime : Int
deriving Repr, DecidableEq

/-- Base64 alphabet used by Node's `Buffer.toString('base64')`. -/
def base64Alphabet : List Char :=
  "ABCDEFGHIJKLMNOPQRSTUVWXYZabcdefghijklmnopqrstuvwxyz0123456789+/".toList

/-- The base64 digit for a 6-bit value. -/
def base64Char (n : Nat) : Char := base64Alphabet.getD n 'A'

/-- Standard base64 with padding, as produced by `Buffer.toString('base64')`
on a byte list. -/
def base64Encode : List Nat → String
  | [] => ""
  | [b0] =>
    String.mk [base64Char (b0 / 4), base64Char (b0 % 4 * 16)] ++ "=="
  | [b0, b1] =>
    String.mk [base64Char (b0 / 4), base64Char (b0 % 4 * 16 + b1 / 16),
      base64Char (b1 % 16 * 4)] ++ "="
  | b0 :: b1 :: b2 :: rest =>
    String.mk [base64Char (b0 / 4), base64Char (b0 % 4 * 16 + b1 / 16),
      base64Char (b1 % 16 * 4 + b2 / 64), base64Char (b2 % 64)] ++
      base64Encode rest

/-- Oracles for every external effect the server performs.  Shell/AppleScript
queries are `Except Err` values (`.error` = the spawned command threw);
HTTP oracles are keyed by the request URL and return `none` for a non-ok
response; filesystem oracles are keyed by path. -/
structure Env where
  playerState : Except Err String
  trackTitle : Except Err String
  trackArtist : Except Err String
  trackAlbum : Except Err String
  songDuration : Except Err Int
  songPosition : Except Err ℚ
  artworkScript : Except Err String
  trackLocationScript : Except Err String
  fileExists : String → Bool
  readFile : String → Except Err (List Nat)
  parseFile : String → Except Err MetaCommon
  readdir : String → Except Err (List String)
  statMtime : String → Except Err Int
  home : String
  itunesFetch : String → Except Err (Option ITunesResponse)
  lastfmFetch : String → Except Err (Option LastFmResponse)
  imageFetch : String → Except Err (Option (List Nat))
  lastfmApiKeyEnv : Option String

/-- `getPlayerState`: the AppleScript result, with the catch-all returning
`'stopped'`. -/
def getPlayerState (env : Env) : String :=
  match env.playerState with
  | .ok s => s
  | .error _ => "stopped"

/-- `getTrackTitle`: catch-all returns `''`. -/
def getTrackTitle (env : Env) : String :=
  match env.trackTitle with
  | .ok s => s
  | .error _ => ""

/-- `getTrackArtist`: catch-all returns `''`. -/
def getTrackArtist (env : Env) : String :=
  match env.trackArtist with
  | .ok s => s
  | .error _ => ""

/-- `getTrackAlbum`: catch-all returns `''`. -/
def getTrackAlbum (env : Env) : String :=
  match env.trackAlbum with
  | .ok s => s
  | .error _ => ""

/-- `getSongDuration`: `parseInt(result) || 0` on the already-parsed oracle,
catch-all returns `0`. -/
def getSongDuration (env : Env) : Int :=
  match env.songDuration with
  | .ok n => n
  | .error _ => 0

/-- `getSongPosition`: `parseFloat(result) || 0`, catch-all returns `0`. -/
def getSongPosition (env : Env) : ℚ :=
  match env.songPosition with
  | .ok q => q
  | .error _ => 0

/-- `getBasicSongInfo`: returns `null` when the player is stopped or title or
artist is empty; `album || 'Unknown Album'`; duration/position become
`undefined` unless positive.  All inner getters already catch, so the outer
`try` never fires. -/
def getBasicSongInfo (env : Env) : Option SongData :=
  let playerState := getPlayerState env
  if playerState = "stopped" then none
  else
    let title := getTrackTitle env
    let artist := getTrackArtist env
    let album := getTrackAlbum env
    let duration := getSongDuration env
    let position := getSongPosition env
    if title = "" ∨ artist = "" then none
    else some
      { title := title
        artist := artist
        album := if album = "" then "Unknown Album" else album
        state := playerState
        albumArt := none
        duration := if duration > 0 then some duration else none
        position := if position > 0 then some position else none }

/-- `try { ... } catch { ... return '' }`: an exception anywhere in the body
yields the empty string. -/
def catchEmpty (r : Except Err String) : String :=
  match r with
  | .ok s => s
  | .error _ => ""

/-- Character-level worker for `replaceFirst`: substitute `rep` for the
first occurrence of `pat`, leave the text unchanged when `pat` never
occurs. -/
def replaceFirstAux (pat rep : List Char) : List Char → List Char
  | [] => []
  | c :: cs =>
    if (c :: cs).take pat.length = pat then rep ++ (c :: cs).drop pat.length
    else c :: replaceFirstAux pat rep cs

/-- JS `s.replace(pat, rep)` with a string pattern: replaces the first
occurrence only. -/
def replaceFirst (s pat rep : String) : String :=
  ⟨replaceFirstAux pat.toList rep.toList s.toList⟩

/-- `fetchAndConvertImage(imageUrl)`: fetch the bytes, tag them
`data:image/jpeg;base64,` regardless of their actual format; a non-ok
response or a thrown error yields `''`. -/
def fetchAndConvertImage (env : Env) (imageUrl : String) : String :=
  match env.imageFetch imageUrl with
  | .error _ => ""
  | .ok none => ""
  | .ok (some imageBuffer) => "data:image/jpeg;base64," ++ base64Encode imageBuffer

/-- Body of `getAppleScriptArtworkBase64` before its `catch`: run the
artwork-export AppleScript, and if it returned an existing temp-file path,
read and tag the bytes.  (URL-free; `readFileSync` failures propagate to the
catch.) -/
def getAppleScriptArtworkBase64E (env : Env) : Except Err String := do
  let result ← env.artworkScript
  if result ≠ "" ∧ env.fileExists result then do
    let imageData ← env.readFile result
    pure ("data:image/jpeg;base64," ++ base64Encode imageData)
  else
    pure ""

/-- `getAppleScriptArtworkBase64` with its `catch` returning `''`. -/
def getAppleScriptArtworkBase64 (env : Env) : String :=
  catchEmpty (getAppleScriptArtworkBase64E env)

/-- iTunes search URL for a term (URL-encoding of the term is not modelled;
the fetch oracle is keyed by the raw URL text). -/
def itunesSearchUrl (term : String) : String :=
  "https://itunes.apple.com/search?term=" ++ term ++ "&entity=album&limit=1"

/-- The `for (const searchTerm of searchTerms)` loop in `getItunesArtwork`:
a non-ok response, empty results, a missing `artworkUrl100` or an empty
converted image all continue with the next term; a thrown fetch error
propagates (to the strategy's catch); the first non-empty converted image is
returned. -/
def itunesTryTerms (env : Env) : List String → Except Err String
  | [] => .ok ""
  | searchTerm :: rest => do
    let response ← env.itunesFetch (itunesSearchUrl searchTerm)
    match response with
    | none => itunesTryTerms env rest
    | some data =>
      match data.results.head? with
      | none => itunesTryTerms env rest
      | some result =>
        match result.artworkUrl100 with
        | none => itunesTryTerms env rest
        | some url =>
          let imageResult :=
            fetchAndConvertImage env (replaceFirst url "100x100" "600x600")
          if imageResult ≠ "" then pure imageResult
          else itunesTryTerms env rest

/-- Body of `getItunesArtwork` before its `catch`: three search-term
variants, then an artist-only fallback search. -/
def getItunesArtworkE (env : Env) : Except Err String := do
  let title := getTrackTitle env
  let artist := getTrackArtist env
  let album := getTrackAlbum env
  if title = "" ∨ artist = "" then
    pure ""
  else
    let searchTerms := [
      artist ++ " " ++ (if album = "" then title else album),
      artist ++ " " ++ title,
      title ++ " " ++ artist]
    let loopResult ← itunesTryTerms env searchTerms
    if loopResult ≠ "" then pure loopResult
    else do
      let artistResponse ← env.itunesFetch (itunesSearchUrl artist)
      match artistResponse with
      | none => pure ""
      | some artistData =>
        match artistData.results.head? with
        | none => pure ""
        | some result =>
          match result.artworkUrl100 with
          | none => pure ""
          | some url =>
            pure (fetchAndConvertImage env (replaceFirst url "100x100" "600x600"))

/-- `getItunesArtwork` with its `catch` returning `''`. -/
def getItunesArtwork (env : Env) : String :=
  catchEmpty (getItunesArtworkE env)

/-- `process.env.LASTFM_API_KEY || '15ea39...'` (an empty env var is falsy). -/
def lastfmApiKey (env : Env) : String :=
  match env.lastfmApiKeyEnv with
  | some k => if k = "" then "15ea39b489ea0fb56936a1573b5f6383" else k
  | none => "15ea39b489ea0fb56936a1573b5f6383"

/-- Last.fm request URL for a parameter string. -/
def lastfmUrl (searchParams apiKey : String) : String :=
  "https://ws.audioscrobbler.com/2.0/?method=album.getinfo&" ++ searchParams ++
    "&api_key=" ++ apiKey ++ "&format=json"

/-- `images.find(size==='large') || images.find(size==='medium') ||
images[images.length - 1]` from `getLastfmArtwork`. -/
def pickLargestImage (images : List LastFmImage) : Option LastFmImage :=
  match images.find? (fun img => img.size == "large") with
  | some i => some i
  | none =>
    match images.find? (fun img => img.size == "medium") with
    | some i => some i
    | none => images.getLast?

/-- The `for (const searchParams of searchStrategies)` loop in
`getLastfmArtwork`: a non-ok response, a missing album, an empty image list,
an image with empty `#text` or an empty converted image continue with the
next strategy; the first non-empty converted image is returned. -/
def lastfmTryStrategies (env : Env) (apiKey : String) :
    List String → Except Err String
  | [] => .ok ""
  | searchParams :: rest => do
    let response ← env.lastfmFetch (lastfmUrl searchParams apiKey)
    match response with
    | none => lastfmTryStrategies env apiKey rest
    | some data =>
      match data.album with
      | none => lastfmTryStrategies env apiKey rest
      | some album =>
        if album.image.length > 0 then
          match pickLargestImage album.image with
          | none => lastfmTryStrategies env apiKey rest
          | some largeImage =>
            if largeImage.text ≠ "" then
              let imageResult := fetchAndConvertImage env largeImage.text
              if imageResult ≠ "" then pure imageResult
              else lastfmTryStrategies env apiKey rest
            else lastfmTryStrategies env apiKey rest
        else lastfmTryStrategies env apiKey rest

/-- Body of `getLastfmArtwork` before its `catch`: album, track and
artist-only parameter variants (the album variant is filtered out when the
album name is empty). -/
def getLastfmArtworkE (env : Env) : Except Err String := do
  let title := getTrackTitle env
  let artist := getTrackArtist env
  let album := getTrackAlbum env
  if title = "" ∨ artist = "" then
    pure ""
  else
    let searchStrategies :=
      (if album ≠ "" then ["album=" ++ album ++ "&artist=" ++ artist] else []) ++
      ["track=" ++ title ++ "&artist=" ++ artist,
       "artist=" ++ artist]
    lastfmTryStrategies env (lastfmApiKey env) searchStrategies

/-- `getLastfmArtwork` with its `catch` returning `''`. -/
def getLastfmArtwork (env : Env) : String :=
  catchEmpty (getLastfmArtworkE env)

/-- Body of `getMetadataArtwork` before its `catch`: locate the track file
via AppleScript, parse its tags, and tag the first embedded picture with its
detected format. -/
def getMetadataArtworkE (env : Env) : Except Err String := do
  let filePath ← env.trackLocationScript
  if filePath ≠ "" ∧ env.fileExists filePath then do
    let metadata ← env.parseFile filePath
    match metadata.picture.head? with
    | some picture =>
      pure ("data:" ++ picture.format ++ ";base64," ++ base64Encode picture.data)
    | none => pure ""
  else
    pure ""

/-- `getMetadataArtwork` with its `catch` returning `''`. -/
def getMetadataArtwork (env : Env) : String :=
  catchEmpty (getMetadataArtworkE env)

/-- Node `path.join` for the one two-segment case the code uses
(`join('', x) = x`). -/
def joinPath (a b : String) : String :=
  if a = "" then b else a ++ "/" ++ b

/-- Stable insertion of a cache entry into a list sorted by descending
mtime; models `Array.prototype.sort` with comparator
`b.mtime.getTime() - a.mtime.getTime()`. -/
def insertByMtimeDesc (e : CacheEntry) : List CacheEntry → List CacheEntry
  | [] => [e]
  | x :: xs => if x.mtime ≤ e.mtime then e :: x :: xs else x :: insertByMtimeDesc e xs

/-- Sort cache entries by descending mtime (stable). -/
def sortByMtimeDesc : List CacheEntry → List CacheEntry
  | [] => []
  | x :: xs => insertByMtimeDesc x (sortByMtimeDesc xs)

/-- Body of `getCachedArtwork` before its `catch`: list the Apple Music
artwork cache directory, stat every file, pick the most recently modified,
read it and tag it `data:image/jpeg;base64,`. -/
def getCachedArtworkE (env : Env) : Except Err String := do
  let artworkPath :=
    joinPath env.home "Library/Containers/com.apple.AMPMusic/Data/Documents/Artwork"
  if env.fileExists artworkPath then do
    let files ← env.readdir artworkPath
    let entries ← files.mapM (fun file => do
      let m ← env.statMtime (joinPath artworkPath file)
      pure (⟨file, joinPath artworkPath file, m⟩ : CacheEntry))
    let sortedFiles := sortByMtimeDesc entries
    match sortedFiles.head? with
    | some latestFile => do
      let imageData ← env.readFile latestFile.path
      pure ("data:image/jpeg;base64," ++ base64Encode imageData)
    | none => pure ""
  else
    pure ""

/-- `getCachedArtwork` with its `catch` returning `''`. -/
def getCachedArtwork (env : Env) : String :=
  catchEmpty (getCachedArtworkE env)

/-- `getAlbumArt`: the five-tier waterfall, exactly as in the source —
each tier's result is tested for truthiness and returned if non-empty,
otherwise the next tier runs; if all five are empty, `''` is returned. -/
def getAlbumArt (env : Env) : String :=
  let base64Art := getAppleScriptArtworkBase64 env
  if base64Art ≠ "" then base64Art
  else
    let itunesArt := getItunesArtwork env
    if itunesArt ≠ "" then itunesArt
    else
      let lastfmArt := getLastfmArtwork env
      if lastfmArt ≠ "" then lastfmArt
      else
        let metadataArt := getMetadataArtwork env
        if metadataArt ≠ "" then metadataArt
        else
          let cachedArt := getCachedArtwork env
          if cachedArt ≠ "" then cachedArt
          else ""

/-- The five strategies' results, in the order `getAlbumArt` tries them. -/
def strategyResults (env : Env) : List String :=
  [getAppleScriptArtworkBase64 env, getItunesArtwork env, getLastfmArtwork env,
   getMetadataArtwork env, getCachedArtwork env]

/-- Instrumented `getAlbumArt`: same result, paired with the 1-based indices
of the strategies that are invoked before the waterfall stops. -/
def getAlbumArtTrace (env : Env) : String × List Nat :=
  let r1 := getAppleScriptArtworkBase64 env
  if r1 ≠ "" then (r1, [1])
  else
    let r2 := getItunesArtwork env
    if r2 ≠ "" then (r2, [1, 2])
    else
      let r3 := getLastfmArtwork env
      if r3 ≠ "" then (r3, [1, 2, 3])
      else
        let r4 := getMetadataArtwork env
        if r4 ≠ "" then (r4, [1, 2, 3, 4])
        else
          let r5 := getCachedArtwork env
          if r5 ≠ "" then (r5, [1, 2, 3, 4, 5])
          else ("", [1, 2, 3, 4, 5])

/-- First-success-wins fallthrough over a list of strategy results. -/
def waterfall (rs : List String) : String :=
  ((rs.find? (fun s => s != "")).getD "")

/-- The mutable fields of `AppleMusicNowPlaying` that `checkForChanges`
reads and writes. -/
structure DetectorState where
  lastSongData : Option LastSongData
  currentSong : Option SongData
  lastSongKey : String
deriving Repr, DecidableEq

/-- The observable outcome of one `checkForChanges` step: the new detector
state, the `sendSongToDeskThing` publications it made (in order), and how
many times it invoked `getAlbumArt`. -/
structure StepResult where
  state : DetectorState
  published : List SongData
  artLookups : Nat
deriving Repr, DecidableEq

/-- The template literal `` `${artist}-${title}-${album}` `` used as
`currentSongKey`. -/
def mkSongKey (s : SongData) : String :=
  s.artist ++ "-" ++ s.title ++ "-" ++ s.album

/-- `Math.abs` on rationals, written so it evaluates by kernel reduction. -/
def ratAbs (q : ℚ) : ℚ := if q < 0 then -q else q

/-- `hasPositionChanged`: `this.currentSong ?
Math.abs((this.currentSong.position || 0) - (basicSong.position || 0)) > 1 :
true`. -/
def hasPositionChanged (cur : Option SongData) (basicSong : SongData) : Bool :=
  match cur with
  | some c => decide (1 < ratAbs (c.position.getD 0 - basicSong.position.getD 0))
  | none => true

/-- `hasStateChanged`: `this.currentSong?.state !== basicSong.state`
(`undefined !== s` is true when `currentSong` is null). -/
def hasStateChanged (cur : Option SongData) (basicSong : SongData) : Bool :=
  cur.map SongData.state != some basicSong.state

/-- `const fullSong = { ...basicSong, albumArt: albumArt || undefined }`. -/
def fullSongOf (basicSong : SongData) (albumArt : String) : SongData :=
  { basicSong with albumArt := if albumArt = "" then none else some albumArt }

/-- The in-place mutation of `this.currentSong` on a position/state change:
`position`, `duration` and `state` are overwritten, everything else kept. -/
def updatedSongOf (c basicSong : SongData) : SongData :=
  { c with position := basicSong.position, duration := basicSong.duration,
           state := basicSong.state }

/-- One `checkForChanges` poll step.  `now` models `Date.now()`.  A null
`getBasicSongInfo` returns early; a changed song key triggers one
`getAlbumArt` call (`albumArt || undefined` drops the empty string) and a
full replace + publish; otherwise a position/state change mutates the
current song in place and republishes it (or, with no current song, just
stores the basic song without publishing). -/
def checkForChanges (st : DetectorState) (env : Env) (now : Int) : StepResult :=
  match getBasicSongInfo env with
  | none => ⟨st, [], 0⟩
  | some basicSong =>
    if mkSongKey basicSong ≠ st.lastSongKey then
      ⟨⟨some ⟨fullSongOf basicSong (getAlbumArt env), now⟩,
        some (fullSongOf basicSong (getAlbumArt env)), mkSongKey basicSong⟩,
       [fullSongOf basicSong (getAlbumArt env)], 1⟩
    else if hasPositionChanged st.currentSong basicSong ||
        hasStateChanged st.currentSong basicSong then
      match st.currentSong with
      | some c =>
        ⟨⟨st.lastSongData, some (updatedSongOf c basicSong), st.lastSongKey⟩,
         [updatedSongOf c basicSong], 0⟩
      | none => ⟨⟨st.lastSongData, some basicSong, st.lastSongKey⟩, [], 0⟩
    else ⟨st, [], 0⟩

/-- `getCurrentSongData`: what the HTTP handler reads. -/
def getCurrentSongData (st : DetectorState) : Option SongData :=
  st.currentSong

/-- The payload object built by `sendSongToDeskThing`. -/
structure Payload where
  version : Nat
  title : String
  artist : String
  album : String
  state : String
  timestamp : Int
  albumArt : Option String
  duration : Option Int
  position : Option ℚ
deriving Repr, DecidableEq

/-- `sendSongToDeskThing`: the JSON payload it serializes and emits, with
`version: 2` and `timestamp: Date.now()`. -/
def sendSongToDeskThing (song : SongData) (now : Int) : Payload :=
  { version := 2
    title := song.title
    artist := song.artist
    album := song.album
    state := song.state
    timestamp := now
    albumArt := song.albumArt
    duration := song.duration
    position := song.position }

/-- JSON string escaping for the two characters `JSON.stringify` always
escapes in the strings this app produces. -/
def jsonEscape (s : String) : String :=
  String.join (s.toList.map (fun c =>
    if c = '\\' then "\\\\" else if c = '"' then "\\\"" else String.singleton c))

/-- A JSON string literal. -/
def jsonStr (s : String) : String := "\"" ++ jsonEscape s ++ "\""

/-- One JSON member, or nothing when the value is `undefined`
(`JSON.stringify` drops undefined properties). -/
def jsonOptMember (key : String) (v : Option String) : List String :=
  match v with
  | none => []
  | some s => [jsonStr key ++ ":" ++ s]

/-- `JSON.stringify` of a `SongData` object in the field order of the
`fullSong` literal (spread of `basicSong`, then `albumArt`). -/
def jsonOfSong (s : SongData) : String :=
  "\x7b" ++ String.intercalate "," (
    [jsonStr "title" ++ ":" ++ jsonStr s.title,
     jsonStr "artist" ++ ":" ++ jsonStr s.artist,
     jsonStr "album" ++ ":" ++ jsonStr s.album,
     jsonStr "state" ++ ":" ++ jsonStr s.state] ++
    jsonOptMember "duration" (s.duration.map toString) ++
    jsonOptMember "position" (s.position.map toString) ++
    jsonOptMember "albumArt" (s.albumArt.map jsonStr)) ++ "\x7d"

/-- `JSON.stringify(currentSong)`: the literal `null` for a null song. -/
def jsonStringifySong : Option SongData → String
  | none => "null"
  | some s => jsonOfSong s

/-- An HTTP response as the handler writes it: status code and body. -/
structure HttpResponse where
  status : Nat
  body : String
deriving Repr, DecidableEq

/-- The `createServer` request handler: OPTIONS preflights get 200 with an
empty body; `/api/current-song` gets 200 with the JSON-serialized current
song (or `null`); everything else gets 404. -/
def handleRequest (method : String) (pathname : String)
    (currentSong : Option SongData) : HttpResponse :=
  if method = "OPTIONS" then ⟨200, ""⟩
  else if pathname = "/api/current-song" then
    ⟨200, jsonStringifySong currentSong⟩
  else ⟨404, "Not Found"⟩

/-- Client-side `simulateProgress` from src/src/App.tsx: extrapolate the
last-known position by the wall-clock milliseconds since the last server
update, convert to a percentage of `duration || 1`, and update the displayed
progress only while it is still at most 100 (otherwise the previous progress
value is kept). -/
def simulateProgress (lastPosition lastUpdateTime now duration prevProgress : ℚ) : ℚ :=
  let timeSinceUpdate := (now - lastUpdateTime) / 1000
  let simulatedPosition := lastPosition + timeSinceUpdate
  let progressPercent := simulatedPosition / (if duration = 0 then 1 else duration) * 100
  if progressPercent ≤ 100 then progressPercent else prevProgress

/-- The guard of the progress-simulation effect: it bails out (no interval
is installed) unless duration and position are truthy and the play state is
`'playing'`. -/
def progressSimActive (duration position : Option ℚ) (state : String) : Bool :=
  !(duration.getD 0 == 0) && !(position.getD 0 == 0) && (state == "playing")

/-- The progress bar render: `width: Math.min(progress, 100)%`. -/
def displayedWidth (progress : ℚ) : ℚ := min progress 100

/-- Fixture: an environment in which the player is playing track
`t` / `a` / `b` but every artwork-related external call throws. -/
def envAllErr : Env :=
  { playerState := .ok "playing"
    trackTitle := .ok "t"
    trackArtist := .ok "a"
    trackAlbum := .ok "b"
    songDuration := .ok 0
    songPosition := .ok 0
    artworkScript := .error "boom"
    trackLocationScript := .error "boom"
    fileExists := fun _ => true
    readFile := fun _ => .error "boom"
    parseFile := fun _ => .error "boom"
    readdir := fun _ => .error "boom"
    statMtime := fun _ => .error "boom"
    home := ""
    itunesFetch := fun _ => .error "boom"
    lastfmFetch := fun _ => .error "boom"
    imageFetch := fun _ => .error "boom"
    lastfmApiKeyEnv := none }

/-- Fixture: an environment in which every artwork source succeeds. -/
def envAllOk : Env :=
  { playerState := .ok "playing"
    trackTitle := .ok "t"
    trackArtist := .ok "a"
    trackAlbum := .ok "b"
    songDuration := .ok 100
    songPosition := .ok 10
    artworkScript := .ok "/tmp/art.jpg"
    trackLocationScript := .ok "/music/t.mp3"
    fileExists := fun _ => true
    readFile := fun _ => .ok [1, 2, 3]
    parseFile := fun _ => .ok ⟨[⟨"image/png", [4, 5]⟩]⟩
    readdir := fun _ => .ok ["f1"]
    statMtime := fun _ => .ok 5
    home := "/Users/u"
    itunesFetch := fun _ => .ok (some ⟨[⟨"a", "b", some "100x100"⟩], 1⟩)
    lastfmFetch := fun _ => .ok (some ⟨some ⟨"b", "a", [⟨"large", "u"⟩]⟩⟩)
    imageFetch := fun _ => .ok (some [9])
    lastfmApiKeyEnv := none }

/-- Fixture: an environment in which the player is stopped. -/
def envStopped : Env :=
  { envAllErr with playerState := .ok "stopped" }

/-- Fixture: the song `envAllErr`'s basic poll yields. -/
def songT : SongData :=
  { title := "t", artist := "a", album := "b", state := "playing",
    albumArt := none, duration := none, position := none }

/-- Fixture: detector state already holding `songT`. -/
def stSame : DetectorState :=
  ⟨some ⟨songT, 0⟩, some songT, "a-t-b"⟩

/-- Fixture: `songT` paused, for a state-flip step. -/
def songTPaused : SongData :=
  { songT with state := "paused" }

/-- Fixture: detector state holding the paused `songT`. -/
def stPaused : DetectorState :=
  ⟨some ⟨songTPaused, 0⟩, some songTPaused, "a-t-b"⟩

/-- Fixture: the empty initial detector state. -/
def stEmpty : DetectorState :=
  ⟨none, none, ""⟩

/-- Key-collision fixture: the previously observed song, with triple
`("a", "b-c", "d")`, whose dash-joined key is `a-b-c-d`. -/
def collidePrev : SongData :=
  { title := "b-c", artist := "a", album := "d", state := "playing",
    albumArt := none, duration := none, position := none }

/-- Key-collision fixture: the newly polled song, with the distinct triple
`("a-b", "c", "d")`, whose dash-joined key is also `a-b-c-d`. -/
def collideNext : SongData :=
  { title := "c", artist := "a-b", album := "d", state := "playing",
    albumArt := none, duration := none, position := none }

/-- Key-collision fixture: detector state holding `collidePrev`. -/
def collideSt : DetectorState :=
  ⟨some ⟨collidePrev, 0⟩, some collidePrev, "a-b-c-d"⟩

/-- Key-collision fixture: environment whose basic poll yields
`collideNext`. -/
def collideEnv : Env :=
  { envAllErr with trackTitle := .ok "c", trackArtist := .ok "a-b",
                   trackAlbum := .ok "d" }

/-- A MIME-tagged base64 data URI. -/
def IsDataUri (s : String) : Prop :=
  ∃ mime payload, s = "data:" ++ mime ++ ";base64," ++ payload

/-- A data URI tagged with the fixed `image/jpeg` MIME type. -/
def JpegTagged (s : String) : Prop :=
  ∃ payload, s = "data:image/jpeg;base64," ++ payload

/-- Helper: Boolean form of string non-emptiness, for reducing `find?` and
`takeWhile` scrutinees. -/
theorem bne_empty_of_ne {s : String} (h : ¬ s = "") : (s != "") = true := by
  simpa [bne_iff_ne] using h

/-- Helper: Boolean form of string non-emptiness for `==` scrutinees. -/
theorem beq_empty_of_ne {s : String} (h : ¬ s = "") : (s == "") = false := by
  simpa [beq_eq_false_iff_ne] using h

/-- Helper: the executable `ratAbs` is the absolute value. -/
theorem ratAbs_eq_abs (q : ℚ) : ratAbs q = |q| := by
  unfold ratAbs
  split_ifs with h
  · exact (abs_of_neg h).symm
  · exact (abs_of_nonneg (not_lt.mp h)).symm

/-- Shared helper: the waterfall result of `getAlbumArt` is the first
non-empty strategy result (or `''`). -/
theorem getAlbumArt_eq_waterfall (env : Env) :
    getAlbumArt env = waterfall (strategyResults env) := by
  unfold getAlbumArt waterfall strategyResults
  by_cases h1 : getAppleScriptArtworkBase64 env = "" <;>
    by_cases h2 : getItunesArtwork env = "" <;>
      by_cases h3 : getLastfmArtwork env = "" <;>
        by_cases h4 : getMetadataArtwork env = "" <;>
          by_cases h5 : getCachedArtwork env = "" <;>
            simp_all [List.find?, bne_empty_of_ne]

/-- Claim C1: in every run of `getAlbumArt`, the five strategies
(AppleScript, iTunes, Last.fm, local file tags, cached artwork) are invoked
in exactly this fixed order; an empty result from a strategy does not
prevent invoking the next; the first non-empty result stops all later
strategies (the invoked set is the prefix `1..k` with `k` the index of the
first non-empty result, clamped at 5); and when all five are empty the
resolver returns `''`. -/
theorem c1_getAlbumArt_fixed_order_short_circuit (env : Env) :
    getAlbumArtTrace env =
      (waterfall (strategyResults env),
       List.range' 1 (min (strategyResults env).length
         (((strategyResults env).takeWhile (fun s => s == "")).length + 1)))
    ∧ getAlbumArt env = (getAlbumArtTrace env).1
    ∧ ((∀ r ∈ strategyResults env, r = "") → getAlbumArt env = "") := by
  unfold getAlbumArtTrace getAlbumArt waterfall strategyResults
  by_cases h1 : getAppleScriptArtworkBase64 env = "" <;>
    by_cases h2 : getItunesArtwork env = "" <;>
      by_cases h3 : getLastfmArtwork env = "" <;>
        by_cases h4 : getMetadataArtwork env = "" <;>
          by_cases h5 : getCachedArtwork env = "" <;>
            simp_all [List.find?, List.takeWhile, List.range', bne_empty_of_ne, beq_empty_of_ne]

/-- Witness for C1: with every strategy failing, the waterfall attempts all
five tiers and returns the empty string. -/
theorem c1_witness :
    getAlbumArtTrace envAllErr =
      (waterfall (strategyResults envAllErr),
       List.range' 1 (min (strategyResults envAllErr).length
         (((strategyResults envAllErr).takeWhile (fun s => s == "")).length + 1)))
    ∧ getAlbumArt envAllErr = (getAlbumArtTrace envAllErr).1
    ∧ getAlbumArt envAllErr = "" :=
  ⟨(c1_getAlbumArt_fixed_order_short_circuit envAllErr).1,
   (c1_getAlbumArt_fixed_order_short_circuit envAllErr).2.1,
   (c1_getAlbumArt_fixed_order_short_circuit envAllErr).2.2 (by decide)⟩

/-- Claim C2: when the newly polled song has the same artist/title/album as
the stored observation (whose key `lastSongKey` is its dash-joined triple),
the same play state, and a position within 1 second of the stored position,
the step resolves no artwork, publishes nothing and leaves the detector
state untouched; moreover, whenever the song key is unchanged — in
particular on mere position/duration drift — `getAlbumArt` is never
invoked. -/
theorem c2_identical_poll_is_silent (st : DetectorState) (env : Env) (now : Int)
    (c basic : SongData)
    (hc : st.currentSong = some c)
    (hb : getBasicSongInfo env = some basic)
    (hkey : st.lastSongKey = mkSongKey c)
    (hartist : basic.artist = c.artist) (htitle : basic.title = c.title)
    (halbum : basic.album = c.album) (hstate : basic.state = c.state)
    (hpos : |c.position.getD 0 - basic.position.getD 0| ≤ 1) :
    ((checkForChanges st env now).artLookups = 0 ∧
     (checkForChanges st env now).published = [] ∧
     (checkForChanges st env now).state = st) ∧
    (∀ (st2 : DetectorState) (env2 : Env) (now2 : Int) (b2 : SongData),
       getBasicSongInfo env2 = some b2 → mkSongKey b2 = st2.lastSongKey →
       (checkForChanges st2 env2 now2).artLookups = 0) := by
  constructor
  · have hkeyb : mkSongKey basic = st.lastSongKey := by
      simp [mkSongKey, hartist, htitle, halbum, hkey]
    have hp : hasPositionChanged st.currentSong basic = false := by
      simp only [hasPositionChanged, hc, decide_eq_false_iff_not, not_lt, ratAbs_eq_abs]
      exact hpos
    have hs : hasStateChanged st.currentSong basic = false := by
      simp [hasStateChanged, hc, hstate]
    unfold checkForChanges
    rw [hb]
    simp [hkeyb, hp, hs]
  · intro st2 env2 now2 b2 hb2 hkey2
    unfold checkForChanges
    rw [hb2]
    simp only [hkey2, ne_eq, not_true_eq_false, if_false]
    cases hpc : (hasPositionChanged st2.currentSong b2 ||
        hasStateChanged st2.currentSong b2) <;>
      cases hcur : st2.currentSong <;> simp [hpc, hcur]

/-- Claim C3 counterexample: the code keys song identity on the dash-joined
string `artist-title-album`, so the distinct triples `("a", "b-c", "d")` and
`("a-b", "c", "d")` collide on the key `a-b-c-d`: the poll step neither
resolves artwork nor publishes, contradicting the claim that every change of
the triple triggers exactly one resolution and one publication. -/
theorem c3_counterexample_key_collision :
    getBasicSongInfo collideEnv = some collideNext ∧
    collideSt.currentSong = some collidePrev ∧
    collideSt.lastSongKey = mkSongKey collidePrev ∧
    (collideNext.artist ≠ collidePrev.artist ∧ collideNext.title ≠ collidePrev.title) ∧
    (checkForChanges collideSt collideEnv 0).artLookups = 0 ∧
    (checkForChanges collideSt collideEnv 0).published = [] := by
  have hb : getBasicSongInfo collideEnv = some collideNext := by
    simp [getBasicSongInfo, getPlayerState, getTrackTitle, getTrackArtist,
      getTrackAlbum, getSongDuration, getSongPosition, collideEnv, envAllErr,
      collideNext]
  have hkeq : ¬ mkSongKey collideNext ≠ collideSt.lastSongKey := by decide
  have hp : hasPositionChanged (some collidePrev) collideNext = false := by
    norm_num [hasPositionChanged, collidePrev, collideNext, ratAbs]
  have hs : hasStateChanged (some collidePrev) collideNext = false := by
    decide
  have hstep : checkForChanges collideSt collideEnv 0 = ⟨collideSt, [], 0⟩ := by
    simp only [checkForChanges, hb]
    rw [if_neg hkeq]
    have hcur : collideSt.currentSong = some collidePrev := rfl
    rw [hcur, hp, hs]
    rfl
  exact ⟨hb, rfl, by decide, ⟨by decide, by decide⟩, by rw [hstep], by rw [hstep]⟩

/-- Claim C3 (amended): for every poll step where the dash-joined key
`artist-title-album` of the newly polled song differs from the stored
`lastSongKey`, artwork resolution is attempted exactly once and the new
state is published exactly once, regardless of whether the resolution yields
an image or the empty string.  (Distinct triples whose dash-joined keys
coincide are treated as the same song by the code.) -/
theorem c3_amended_key_change_publishes_once (st : DetectorState) (env : Env)
    (now : Int) (basic : SongData)
    (hb : getBasicSongInfo env = some basic)
    (hkey : mkSongKey basic ≠ st.lastSongKey) :
    (checkForChanges st env now).artLookups = 1 ∧
    ∃ art : Option String,
      (checkForChanges st env now).published = [{ basic with albumArt := art }] ∧
      (checkForChanges st env now).state.currentSong =
        some { basic with albumArt := art } ∧
      (checkForChanges st env now).state.lastSongKey = mkSongKey basic := by
  have hstep : checkForChanges st env now =
      ⟨⟨some ⟨fullSongOf basic (getAlbumArt env), now⟩,
        some (fullSongOf basic (getAlbumArt env)), mkSongKey basic⟩,
       [fullSongOf basic (getAlbumArt env)], 1⟩ := by
    simp only [checkForChanges, hb]
    rw [if_pos hkey]
  rw [hstep]
  exact ⟨rfl,
    ⟨(if getAlbumArt env = "" then none else some (getAlbumArt env)), rfl, rfl, rfl⟩⟩

/-- Claim C4: when the key is unchanged but the play state flips or the
position drifts by more than 1 second, the stored song is updated in place
(position, duration, state) and published once, its albumArt and
title/artist/album are untouched, and `getAlbumArt` is not invoked. -/
theorem c4_lightweight_update_keeps_artwork (st : DetectorState) (env : Env)
    (now : Int) (c basic : SongData)
    (hc : st.currentSong = some c)
    (hb : getBasicSongInfo env = some basic)
    (hkey : mkSongKey basic = st.lastSongKey)
    (hchange : c.state ≠ basic.state ∨ 1 < |c.position.getD 0 - basic.position.getD 0|) :
    (checkForChanges st env now).state.currentSong =
      some { c with position := basic.position, duration := basic.duration,
                    state := basic.state } ∧
    (checkForChanges st env now).published =
      [{ c with position := basic.position, duration := basic.duration,
                state := basic.state }] ∧
    (checkForChanges st env now).artLookups = 0 ∧
    ({ c with position := basic.position, duration := basic.duration,
              state := basic.state } : SongData).albumArt = c.albumArt ∧
    ({ c with position := basic.position, duration := basic.duration,
              state := basic.state } : SongData).title = c.title ∧
    ({ c with position := basic.position, duration := basic.duration,
              state := basic.state } : SongData).artist = c.artist ∧
    ({ c with position := basic.position, duration := basic.duration,
              state := basic.state } : SongData).album = c.album := by
  have hcond : (hasPositionChanged (some c) basic ||
      hasStateChanged (some c) basic) = true := by
    rcases hchange with h | h
    · refine Bool.or_eq_true_iff.mpr (Or.inr ?_)
      simp only [hasStateChanged, Option.map_some', bne_iff_ne, ne_eq,
        Option.some.injEq]
      exact h
    · refine Bool.or_eq_true_iff.mpr (Or.inl ?_)
      simp only [hasPositionChanged, ratAbs_eq_abs, decide_eq_true_eq]
      exact h
  have hstep : checkForChanges st env now =
      ⟨⟨st.lastSongData, some (updatedSongOf c basic), st.lastSongKey⟩,
       [updatedSongOf c basic], 0⟩ := by
    simp only [checkForChanges, hb, hc]
    rw [if_neg (by simp [hkey]), if_pos hcond]
  rw [hstep]
  exact ⟨rfl, rfl, rfl, rfl, rfl, rfl, rfl⟩

/-- Claim C10 (implicit): when `getBasicSongInfo` yields nothing — in
particular when the player state is `'stopped'` or the title or artist is
empty (which is also where thrown shell queries land, since every getter
catches to `'stopped'`/`''`) — the poll step is a complete no-op: detector
state, publications and artwork lookups are all untouched, so the HTTP
endpoint keeps serving the previous current song. -/
theorem c10_null_poll_is_noop (st : DetectorState) (env : Env) (now : Int)
    (h : getBasicSongInfo env = none) :
    checkForChanges st env now = ⟨st, [], 0⟩ ∧
    getCurrentSongData (checkForChanges st env now).state = getCurrentSongData st ∧
    (∀ env2 : Env,
       getPlayerState env2 = "stopped" ∨ getTrackTitle env2 = "" ∨
         getTrackArtist env2 = "" →
       getBasicSongInfo env2 = none) := by
  refine ⟨?_, ?_, ?_⟩
  · unfold checkForChanges; rw [h]
  · unfold checkForChanges; rw [h]
  · intro env2 h2
    unfold getBasicSongInfo
    rcases h2 with h2 | h2 | h2
    · simp [h2]
    · by_cases hs : getPlayerState env2 = "stopped" <;> simp [hs, h2]
    · by_cases hs : getPlayerState env2 = "stopped" <;> simp [hs, h2]

/-- Witness for C2: an identical consecutive poll of `songT`. -/
theorem c2_witness :
    (((checkForChanges stSame envAllErr 0).artLookups = 0 ∧
      (checkForChanges stSame envAllErr 0).published = [] ∧
      (checkForChanges stSame envAllErr 0).state = stSame) ∧
     (∀ (st2 : DetectorState) (env2 : Env) (now2 : Int) (b2 : SongData),
        getBasicSongInfo env2 = some b2 → mkSongKey b2 = st2.lastSongKey →
        (checkForChanges st2 env2 now2).artLookups = 0)) :=
  c2_identical_poll_is_silent stSame envAllErr 0 songT songT rfl rfl (by decide)
    rfl rfl rfl rfl (by norm_num [songT])

/-- Witness for C3 (amended): the very first poll, with an empty stored
key, resolves artwork once and publishes once. -/
theorem c3_amended_witness :
    (checkForChanges stEmpty envAllErr 0).artLookups = 1 ∧
    ∃ art : Option String,
      (checkForChanges stEmpty envAllErr 0).published =
        [{ songT with albumArt := art }] ∧
      (checkForChanges stEmpty envAllErr 0).state.currentSong =
        some { songT with albumArt := art } ∧
      (checkForChanges stEmpty envAllErr 0).state.lastSongKey = mkSongKey songT :=
  c3_amended_key_change_publishes_once stEmpty envAllErr 0 songT rfl (by decide)

/-- Witness for C4: a pause-to-play flip on the same song. -/
theorem c4_witness :
    (checkForChanges stPaused envAllErr 0).state.currentSong =
      some (updatedSongOf songTPaused songT) ∧
    (checkForChanges stPaused envAllErr 0).published =
      [updatedSongOf songTPaused songT] ∧
    (checkForChanges stPaused envAllErr 0).artLookups = 0 ∧
    (updatedSongOf songTPaused songT).albumArt = songTPaused.albumArt ∧
    (updatedSongOf songTPaused songT).title = songTPaused.title ∧
    (updatedSongOf songTPaused songT).artist = songTPaused.artist ∧
    (updatedSongOf songTPaused songT).album = songTPaused.album :=
  c4_lightweight_update_keeps_artwork stPaused envAllErr 0 songTPaused songT rfl
    rfl (by decide) (Or.inl (by decide))

/-- Helper: inverting a successful `Except` bind. -/
theorem except_bind_ok {α β : Type} {x : Except Err α} {f : α → Except Err β}
    {b : β} (h : x.bind f = .ok b) : ∃ a, x = .ok a ∧ f a = .ok b := by
  cases x with
  | error e => simp [Except.bind] at h
  | ok a => exact ⟨a, rfl, by simpa [Except.bind] using h⟩

/-- Claim C5: the artwork resolver never raises.  Each strategy's body is an
effectful computation whose thrown exception is caught locally and turned
into `''` (likewise `fetchAndConvertImage`), and `getAlbumArt` is the total
waterfall over the five caught results, so it always returns normally with
the first non-empty result or the empty string. -/
theorem c5_resolver_never_raises :
    (∀ (env : Env) (e : Err), getAppleScriptArtworkBase64E env = .error e →
       getAppleScriptArtworkBase64 env = "") ∧
    (∀ (env : Env) (e : Err), getItunesArtworkE env = .error e →
       getItunesArtwork env = "") ∧
    (∀ (env : Env) (e : Err), getLastfmArtworkE env = .error e →
       getLastfmArtwork env = "") ∧
    (∀ (env : Env) (e : Err), getMetadataArtworkE env = .error e →
       getMetadataArtwork env = "") ∧
    (∀ (env : Env) (e : Err), getCachedArtworkE env = .error e →
       getCachedArtwork env = "") ∧
    (∀ (env : Env) (url : String) (e : Err), env.imageFetch url = .error e →
       fetchAndConvertImage env url = "") ∧
    (∀ env : Env, getAlbumArt env = waterfall (strategyResults env)) := by
  refine ⟨?_, ?_, ?_, ?_, ?_, ?_, getAlbumArt_eq_waterfall⟩
  · intro env e h; simp [getAppleScriptArtworkBase64, catchEmpty, h]
  · intro env e h; simp [getItunesArtwork, catchEmpty, h]
  · intro env e h; simp [getLastfmArtwork, catchEmpty, h]
  · intro env e h; simp [getMetadataArtwork, catchEmpty, h]
  · intro env e h; simp [getCachedArtwork, catchEmpty, h]
  · intro env url e h; simp [fetchAndConvertImage, h]

/-- Witness for C5: an environment in which every strategy's body throws. -/
theorem c5_witness :
    getAppleScriptArtworkBase64 envAllErr = "" ∧
    getItunesArtwork envAllErr = "" ∧
    getLastfmArtwork envAllErr = "" ∧
    getMetadataArtwork envAllErr = "" ∧
    getCachedArtwork envAllErr = "" ∧
    fetchAndConvertImage envAllErr "u" = "" ∧
    getAlbumArt envAllErr = waterfall (strategyResults envAllErr) :=
  ⟨c5_resolver_never_raises.1 envAllErr "boom" rfl,
   c5_resolver_never_raises.2.1 envAllErr "boom" rfl,
   c5_resolver_never_raises.2.2.1 envAllErr "boom" rfl,
   c5_resolver_never_raises.2.2.2.1 envAllErr "boom" rfl,
   c5_resolver_never_raises.2.2.2.2.1 envAllErr "boom" rfl,
   c5_resolver_never_raises.2.2.2.2.2.1 envAllErr "u" "boom" rfl,
   c5_resolver_never_raises.2.2.2.2.2.2 envAllErr⟩

/-- Helper: every non-empty `fetchAndConvertImage` result carries the fixed
`image/jpeg` tag, whatever the fetched bytes were. -/
theorem fetchAndConvertImage_shape (env : Env) (url : String) :
    fetchAndConvertImage env url = "" ∨ JpegTagged (fetchAndConvertImage env url) := by
  unfold fetchAndConvertImage
  cases h : env.imageFetch url with
  | error e => exact Or.inl rfl
  | ok o =>
    cases o with
    | none => exact Or.inl rfl
    | some imageBuffer => exact Or.inr ⟨base64Encode imageBuffer, rfl⟩

/-- Helper: inverting a successful `Except` pure. -/
theorem except_pure_ok {α : Type} {a b : α} (h : (pure a : Except Err α) = .ok b) :
    a = b := by
  injection h

/-- Helper: shape of a successful AppleScript-artwork body. -/
theorem getAppleScriptArtworkBase64E_shape (env : Env) (s : String)
    (h : getAppleScriptArtworkBase64E env = .ok s) : s = "" ∨ JpegTagged s := by
  unfold getAppleScriptArtworkBase64E at h
  obtain ⟨result, hr, h⟩ := except_bind_ok h
  split_ifs at h with hc
  · obtain ⟨imageData, hd, h⟩ := except_bind_ok h
    exact Or.inr ⟨base64Encode imageData, (except_pure_ok h).symm⟩
  · exact Or.inl (except_pure_ok h).symm

/-- Helper: shape of a successful iTunes term loop. -/
theorem itunesTryTerms_shape (env : Env) :
    ∀ (terms : List String) (s : String),
      itunesTryTerms env terms = .ok s → s = "" ∨ JpegTagged s := by
  intro terms
  induction terms with
  | nil =>
    intro s h
    exact Or.inl (Except.ok.inj h).symm
  | cons t rest ih =>
    intro s h
    simp only [itunesTryTerms] at h
    obtain ⟨resp, hr, h⟩ := except_bind_ok h
    cases resp with
    | none => exact ih s h
    | some data =>
      dsimp only at h
      cases hh : data.results.head? with
      | none => simp only [hh] at h; exact ih s h
      | some result =>
        simp only [hh] at h
        cases hu : result.artworkUrl100 with
        | none => simp only [hu] at h; exact ih s h
        | some url =>
          simp only [hu] at h
          split_ifs at h with hne
          · obtain rfl : fetchAndConvertImage env
                (replaceFirst url "100x100" "600x600") = s := except_pure_ok h
            exact fetchAndConvertImage_shape env _
          · exact ih s h

/-- Helper: shape of a successful iTunes strategy body. -/
theorem getItunesArtworkE_shape (env : Env) (s : String)
    (h : getItunesArtworkE env = .ok s) : s = "" ∨ JpegTagged s := by
  unfold getItunesArtworkE at h
  dsimp only at h
  by_cases h0 : getTrackTitle env = "" ∨ getTrackArtist env = ""
  · rw [if_pos h0] at h
    exact Or.inl (except_pure_ok h).symm
  · rw [if_neg h0] at h
    obtain ⟨loopResult, hl, h⟩ := except_bind_ok h
    split_ifs at h with hlr
    · obtain rfl : loopResult = s := except_pure_ok h
      exact itunesTryTerms_shape env _ _ hl
    · obtain ⟨artistResponse, ha, h⟩ := except_bind_ok h
      cases artistResponse with
      | none => exact Or.inl (except_pure_ok h).symm
      | some artistData =>
        dsimp only at h
        cases hh : artistData.results.head? with
        | none => simp only [hh] at h; exact Or.inl (except_pure_ok h).symm
        | some result =>
          simp only [hh] at h
          cases hu : result.artworkUrl100 with
          | none => simp only [hu] at h; exact Or.inl (except_pure_ok h).symm
          | some url =>
            simp only [hu] at h
            obtain rfl : fetchAndConvertImage env
                (replaceFirst url "100x100" "600x600") = s := except_pure_ok h
            exact fetchAndConvertImage_shape env _

/-- Helper: shape of a successful Last.fm strategy loop. -/
theorem lastfmTryStrategies_shape (env : Env) (apiKey : String) :
    ∀ (strategies : List String) (s : String),
      lastfmTryStrategies env apiKey strategies = .ok s → s = "" ∨ JpegTagged s := by
  intro strategies
  induction strategies with
  | nil =>
    intro s h
    exact Or.inl (Except.ok.inj h).symm
  | cons params rest ih =>
    intro s h
    simp only [lastfmTryStrategies] at h
    obtain ⟨resp, hr, h⟩ := except_bind_ok h
    cases resp with
    | none => exact ih s h
    | some data =>
      dsimp only at h
      cases ha : data.album with
      | none => simp only [ha] at h; exact ih s h
      | some album =>
        simp only [ha] at h
        split_ifs at h with hlen
        · cases hp : pickLargestImage album.image with
          | none => simp only [hp] at h; exact ih s h
          | some largeImage =>
            simp only [hp] at h
            split_ifs at h with htext hne
            · obtain rfl : fetchAndConvertImage env largeImage.text = s :=
                except_pure_ok h
              exact fetchAndConvertImage_shape env _
            · exact ih s h
            · exact ih s h
        · exact ih s h

/-- Helper: shape of a successful Last.fm strategy body. -/
theorem getLastfmArtworkE_shape (env : Env) (s : String)
    (h : getLastfmArtworkE env = .ok s) : s = "" ∨ JpegTagged s := by
  unfold getLastfmArtworkE at h
  dsimp only at h
  by_cases h0 : getTrackTitle env = "" ∨ getTrackArtist env = ""
  · rw [if_pos h0] at h
    exact Or.inl (except_pure_ok h).symm
  · rw [if_neg h0] at h
    exact lastfmTryStrategies_shape env _ _ s h

/-- Helper: shape of a successful local-file-tags strategy body: the tag is
the picture's detected format. -/
theorem getMetadataArtworkE_shape (env : Env) (s : String)
    (h : getMetadataArtworkE env = .ok s) :
    s = "" ∨ ∃ fmt p, s = "data:" ++ fmt ++ ";base64," ++ p := by
  unfold getMetadataArtworkE at h
  obtain ⟨filePath, hf, h⟩ := except_bind_ok h
  split_ifs at h with hc
  · obtain ⟨metadata, hm, h⟩ := except_bind_ok h
    cases hh : metadata.picture.head? with
    | none => simp only [hh] at h; exact Or.inl (except_pure_ok h).symm
    | some picture =>
      simp only [hh] at h
      exact Or.inr ⟨picture.format, base64Encode picture.data, (except_pure_ok h).symm⟩
  · exact Or.inl (except_pure_ok h).symm

/-- Helper: shape of a successful cached-artwork strategy body. -/
theorem getCachedArtworkE_shape (env : Env) (s : String)
    (h : getCachedArtworkE env = .ok s) : s = "" ∨ JpegTagged s := by
  unfold getCachedArtworkE at h
  dsimp only at h
  split_ifs at h with hex
  · obtain ⟨files, hf, h⟩ := except_bind_ok h
    obtain ⟨entries, he, h⟩ := except_bind_ok h
    cases hh : (sortByMtimeDesc entries).head? with
    | none => simp only [hh] at h; exact Or.inl (except_pure_ok h).symm
    | some latestFile =>
      simp only [hh] at h
      obtain ⟨imageData, hi, h⟩ := except_bind_ok h
      exact Or.inr ⟨base64Encode imageData, (except_pure_ok h).symm⟩
  · exact Or.inl (except_pure_ok h).symm

/-- Helper: lifting a body-shape lemma through the strategy's catch. -/
theorem getAppleScriptArtworkBase64_shape (env : Env) :
    getAppleScriptArtworkBase64 env = "" ∨
      JpegTagged (getAppleScriptArtworkBase64 env) := by
  unfold getAppleScriptArtworkBase64 catchEmpty
  cases h : getAppleScriptArtworkBase64E env with
  | error e => exact Or.inl rfl
  | ok s => exact getAppleScriptArtworkBase64E_shape env s h

/-- Helper: shape of the caught iTunes strategy. -/
theorem getItunesArtwork_shape (env : Env) :
    getItunesArtwork env = "" ∨ JpegTagged (getItunesArtwork env) := by
  unfold getItunesArtwork catchEmpty
  cases h : getItunesArtworkE env with
  | error e => exact Or.inl rfl
  | ok s => exact getItunesArtworkE_shape env s h

/-- Helper: shape of the caught Last.fm strategy. -/
theorem getLastfmArtwork_shape (env : Env) :
    getLastfmArtwork env = "" ∨ JpegTagged (getLastfmArtwork env) := by
  unfold getLastfmArtwork catchEmpty
  cases h : getLastfmArtworkE env with
  | error e => exact Or.inl rfl
  | ok s => exact getLastfmArtworkE_shape env s h

/-- Helper: shape of the caught local-file-tags strategy. -/
theorem getMetadataArtwork_shape (env : Env) :
    getMetadataArtwork env = "" ∨
      ∃ fmt p, getMetadataArtwork env = "data:" ++ fmt ++ ";base64," ++ p := by
  unfold getMetadataArtwork catchEmpty
  cases h : getMetadataArtworkE env with
  | error e => exact Or.inl rfl
  | ok s => exact getMetadataArtworkE_shape env s h

/-- Helper: shape of the caught cached-artwork strategy. -/
theorem getCachedArtwork_shape (env : Env) :
    getCachedArtwork env = "" ∨ JpegTagged (getCachedArtwork env) := by
  unfold getCachedArtwork catchEmpty
  cases h : getCachedArtworkE env with
  | error e => exact Or.inl rfl
  | ok s => exact getCachedArtworkE_shape env s h

/-- Helper: a jpeg-tagged string is a MIME-tagged data URI. -/
theorem jpegTagged_isDataUri {s : String} (h : JpegTagged s) : IsDataUri s := by
  obtain ⟨p, hp⟩ := h
  have hlit : ("data:" ++ "image/jpeg" ++ ";base64," : String) =
      "data:image/jpeg;base64," := by decide
  exact ⟨"image/jpeg", p, by rw [hp, ← hlit]⟩

/-- Claim C7: every non-empty artwork result, from any of the five
strategies, is a MIME-tagged base64 data URI; the network strategies
(via `fetchAndConvertImage`) and the cached-artwork strategy always tag
`data:image/jpeg;base64,` regardless of the fetched bytes, and only the
local-file-tags strategy uses the picture's detected format. -/
theorem c7_artwork_is_mime_tagged_base64 :
    (∀ env : Env, getAlbumArt env ≠ "" → IsDataUri (getAlbumArt env)) ∧
    (∀ (env : Env) (url : String), fetchAndConvertImage env url ≠ "" →
       JpegTagged (fetchAndConvertImage env url)) ∧
    (∀ env : Env, getAppleScriptArtworkBase64 env ≠ "" →
       JpegTagged (getAppleScriptArtworkBase64 env)) ∧
    (∀ env : Env, getItunesArtwork env ≠ "" → JpegTagged (getItunesArtwork env)) ∧
    (∀ env : Env, getLastfmArtwork env ≠ "" → JpegTagged (getLastfmArtwork env)) ∧
    (∀ env : Env, getCachedArtwork env ≠ "" → JpegTagged (getCachedArtwork env)) ∧
    (∀ env : Env, getMetadataArtwork env ≠ "" →
       ∃ fmt p, getMetadataArtwork env = "data:" ++ fmt ++ ";base64," ++ p) := by
  refine ⟨?_, ?_, ?_, ?_, ?_, ?_, ?_⟩
  · intro env hne
    unfold getAlbumArt at hne ⊢
    dsimp only at hne ⊢
    split_ifs at hne ⊢ with h1 h2 h3 h4 h5
    · exact jpegTagged_isDataUri ((getAppleScriptArtworkBase64_shape env).resolve_left h1)
    · exact jpegTagged_isDataUri ((getItunesArtwork_shape env).resolve_left h2)
    · exact jpegTagged_isDataUri ((getLastfmArtwork_shape env).resolve_left h3)
    · obtain ⟨fmt, p, hp⟩ := (getMetadataArtwork_shape env).resolve_left h4
      exact ⟨fmt, p, hp⟩
    · exact jpegTagged_isDataUri ((getCachedArtwork_shape env).resolve_left h5)
    · exact absurd rfl hne
  · intro env url hne; exact (fetchAndConvertImage_shape env url).resolve_left hne
  · intro env hne; exact (getAppleScriptArtworkBase64_shape env).resolve_left hne
  · intro env hne; exact (getItunesArtwork_shape env).resolve_left hne
  · intro env hne; exact (getLastfmArtwork_shape env).resolve_left hne
  · intro env hne; exact (getCachedArtwork_shape env).resolve_left hne
  · intro env hne; exact (getMetadataArtwork_shape env).resolve_left hne

/-- Witness for C7: an environment where every artwork source succeeds. -/
theorem c7_witness :
    IsDataUri (getAlbumArt envAllOk) ∧
    JpegTagged (fetchAndConvertImage envAllOk "u") ∧
    JpegTagged (getAppleScriptArtworkBase64 envAllOk) ∧
    JpegTagged (getItunesArtwork envAllOk) ∧
    JpegTagged (getLastfmArtwork envAllOk) ∧
    JpegTagged (getCachedArtwork envAllOk) ∧
    (∃ fmt p, getMetadataArtwork envAllOk = "data:" ++ fmt ++ ";base64," ++ p) :=
  ⟨c7_artwork_is_mime_tagged_base64.1 envAllOk (by decide),
   c7_artwork_is_mime_tagged_base64.2.1 envAllOk "u" (by decide),
   c7_artwork_is_mime_tagged_base64.2.2.1 envAllOk (by decide),
   c7_artwork_is_mime_tagged_base64.2.2.2.1 envAllOk (by decide),
   c7_artwork_is_mime_tagged_base64.2.2.2.2.1 envAllOk (by decide),
   c7_artwork_is_mime_tagged_base64.2.2.2.2.2.1 envAllOk (by decide),
   c7_artwork_is_mime_tagged_base64.2.2.2.2.2.2 envAllOk (by decide)⟩

/-- Claim C6: for every Last.fm response with a non-empty ranked image
list, `pickLargestImage` returns an element of the list: the first one sized
`large` when one exists, else the first one sized `medium`, else the last
element of the list. -/
theorem c6_lastfm_picks_largest_size (images : List LastFmImage)
    (h : images ≠ []) :
    ∃ img, pickLargestImage images = some img ∧
      ((∃ i ∈ images, i.size = "large") → img ∈ images ∧ img.size = "large") ∧
      ((∀ i ∈ images, i.size ≠ "large") → (∃ i ∈ images, i.size = "medium") →
        img ∈ images ∧ img.size = "medium") ∧
      ((∀ i ∈ images, i.size ≠ "large") → (∀ i ∈ images, i.size ≠ "medium") →
        images.getLast? = some img) := by
  unfold pickLargestImage
  cases hL : images.find? (fun img => img.size == "large") with
  | some i =>
    have hmem := List.mem_of_find?_eq_some hL
    have hpred : i.size = "large" := by
      have := List.find?_some hL
      simpa [beq_iff_eq] using this
    refine ⟨i, rfl, fun _ => ⟨hmem, hpred⟩, ?_, ?_⟩
    · intro hno _; exact absurd hpred (hno i hmem)
    · intro hno _; exact absurd hpred (hno i hmem)
  | none =>
    have hnoL : ∀ i ∈ images, ¬ i.size = "large" := by
      intro i hi
      have := List.find?_eq_none.mp hL i hi
      simpa [beq_iff_eq] using this
    cases hM : images.find? (fun img => img.size == "medium") with
    | some i =>
      have hmem := List.mem_of_find?_eq_some hM
      have hpred : i.size = "medium" := by
        have := List.find?_some hM
        simpa [beq_iff_eq] using this
      refine ⟨i, rfl, ?_, fun _ _ => ⟨hmem, hpred⟩, ?_⟩
      · rintro ⟨j, hj, hjl⟩; exact absurd hjl (hnoL j hj)
      · intro _ hnoM; exact absurd hpred (hnoM i hmem)
    | none =>
      have hnoM : ∀ i ∈ images, ¬ i.size = "medium" := by
        intro i hi
        have := List.find?_eq_none.mp hM i hi
        simpa [beq_iff_eq] using this
      obtain ⟨img, hlast⟩ : ∃ img, images.getLast? = some img := by
        cases himg : images.getLast? with
        | some i => exact ⟨i, rfl⟩
        | none => exact absurd (List.getLast?_eq_none_iff.mp himg) h
      refine ⟨img, hlast, ?_, ?_, fun _ _ => hlast⟩
      · rintro ⟨j, hj, hjl⟩; exact absurd hjl (hnoL j hj)
      · rintro _ ⟨j, hj, hjm⟩; exact absurd hjm (hnoM j hj)

/-- Witness for C6: a two-element ranked list with a `large` entry. -/
theorem c6_witness :
    ∃ img, pickLargestImage [⟨"small", "s"⟩, ⟨"large", "l"⟩] = some img ∧
      ((∃ i ∈ [(⟨"small", "s"⟩ : LastFmImage), ⟨"large", "l"⟩], i.size = "large") →
        img ∈ [(⟨"small", "s"⟩ : LastFmImage), ⟨"large", "l"⟩] ∧ img.size = "large") ∧
      ((∀ i ∈ [(⟨"small", "s"⟩ : LastFmImage), ⟨"large", "l"⟩], i.size ≠ "large") →
        (∃ i ∈ [(⟨"small", "s"⟩ : LastFmImage), ⟨"large", "l"⟩], i.size = "medium") →
        img ∈ [(⟨"small", "s"⟩ : LastFmImage), ⟨"large", "l"⟩] ∧ img.size = "medium") ∧
      ((∀ i ∈ [(⟨"small", "s"⟩ : LastFmImage), ⟨"large", "l"⟩], i.size ≠ "large") →
        (∀ i ∈ [(⟨"small", "s"⟩ : LastFmImage), ⟨"large", "l"⟩], i.size ≠ "medium") →
        ([(⟨"small", "s"⟩ : LastFmImage), ⟨"large", "l"⟩] : List LastFmImage).getLast? =
          some img) :=
  c6_lastfm_picks_largest_size [⟨"small", "s"⟩, ⟨"large", "l"⟩] (by simp)

/-- Claim C8: the client-side progress simulation.  With last-known position
30, duration 200, play state `'playing'`, after 5000 ms of wall-clock elapse
the displayed progress is `(35/200)*100 = 17.5` percent; the rendered bar
width never exceeds 100 percent, and the simulated progress stays at most
100 whenever it was; and no simulation runs when the state is not
`'playing'` (the effect's guard is false). -/
theorem c8_progress_simulation :
    (simulateProgress 30 0 5000 200 0 = 35 / 2 ∧
     displayedWidth (simulateProgress 30 0 5000 200 0) = 35 / 2) ∧
    (∀ progress : ℚ, displayedWidth progress ≤ 100) ∧
    (∀ lastPosition lastUpdateTime now duration prevProgress : ℚ,
       prevProgress ≤ 100 →
       simulateProgress lastPosition lastUpdateTime now duration prevProgress ≤ 100) ∧
    (∀ (duration position : Option ℚ) (state : String), state ≠ "playing" →
       progressSimActive duration position state = false) := by
  refine ⟨⟨?_, ?_⟩, ?_, ?_, ?_⟩
  · norm_num [simulateProgress]
  · norm_num [simulateProgress, displayedWidth]
  · intro progress; exact min_le_right progress 100
  · intro lastPosition lastUpdateTime now duration prevProgress hprev
    unfold simulateProgress
    dsimp only
    split_ifs <;> assumption
  · intro duration position state hs
    have hb : (state == "playing") = false := beq_eq_false_iff_ne.mpr hs
    simp [progressSimActive, hb]

/-- Witness for C8 at concrete inputs. -/
theorem c8_witness :
    displayedWidth 50 ≤ 100 ∧ simulateProgress 0 0 0 0 0 ≤ 100 ∧
    progressSimActive none none "paused" = false :=
  ⟨c8_progress_simulation.2.1 50,
   c8_progress_simulation.2.2.1 0 0 0 0 0 (by norm_num),
   c8_progress_simulation.2.2.2 none none "paused" (by decide)⟩

/-- Claim C9: the HTTP interface.  Every GET of `/api/current-song` receives
status 200 with the JSON serialization of the current song (`null` when
there is none); every OPTIONS request receives status 200; and every
published payload carries `version = 2` and a timestamp alongside
title/artist/album/state/duration/position. -/
theorem c9_http_interface :
    (∀ song : Option SongData,
       handleRequest "GET" "/api/current-song" song = ⟨200, jsonStringifySong song⟩) ∧
    jsonStringifySong none = "null" ∧
    (∀ (pathname : String) (song : Option SongData),
       (handleRequest "OPTIONS" pathname song).status = 200) ∧
    (∀ (song : SongData) (now : Int),
       (sendSongToDeskThing song now).version = 2 ∧
       (sendSongToDeskThing song now).timestamp = now ∧
       (sendSongToDeskThing song now).title = song.title ∧
       (sendSongToDeskThing song now).artist = song.artist ∧
       (sendSongToDeskThing song now).album = song.album ∧
       (sendSongToDeskThing song now).state = song.state ∧
       (sendSongToDeskThing song now).duration = song.duration ∧
       (sendSongToDeskThing song now).position = song.position) := by
  refine ⟨?_, rfl, ?_, ?_⟩
  · intro song
    unfold handleRequest
    rw [if_neg (by decide), if_pos rfl]
  · intro pathname song
    unfold handleRequest
    rw [if_pos rfl]
  · intro song now
    exact ⟨rfl, rfl, rfl, rfl, rfl, rfl, rfl, rfl⟩

/-- Witness for C10: a poll while the player is stopped. -/
theorem c10_witness :
    checkForChanges stSame envStopped 0 = ⟨stSame, [], 0⟩ ∧
    getCurrentSongData (checkForChanges stSame envStopped 0).state =
      getCurrentSongData stSame ∧
    (∀ env2 : Env,
       getPlayerState env2 = "stopped" ∨ getTrackTitle env2 = "" ∨
         getTrackArtist env2 = "" →
       getBasicSongInfo env2 = none) :=
  c10_null_poll_is_noop stSame envStopped 0 (by decide)

end AppleMusicLocal
